import Mathlib

/-!
Shallow embedding of the session-orchestration core of the
`okland/openai-realtime-console` console page (`src/unnamed/part_000`,
the `ConsolePage` React component).

The three external adapters (RealtimeClient, WavRecorder, WavStreamPlayer)
are black boxes per the spec; their observable surface is modelled as
fields of the orchestrator state (recorder status, player connection,
the client's connected flag and canonical item list) plus an explicit
trace of adapter calls and state-setter steps (`Step`), so that ordering
and exactly-once properties can be stated.
-/

namespace ConsolePage

/-- `source: 'client' | 'server'` of a logged realtime event. -/
inductive EventSource
  | client
  | server
deriving DecidableEq, Repr

/-- The event payload `{ [key: string]: any }`; only its `type` field is
inspected by the code (for coalescing). The remaining fields are
abstracted as an opaque `data` string. -/
structure EventPayload where
  type : String
  data : String := ""
deriving DecidableEq, Repr

/-- `interface RealtimeEvent { time; source; count?; event }`. -/
structure RealtimeEvent where
  time : String
  source : EventSource
  count : Option Nat := none
  event : EventPayload
deriving DecidableEq, Repr

/-- The `client.on('realtime.event')` handler's state update on the
`realtimeEvents` log (part_000 lines 453-464):
if the last entry has the same `event.type`, mutate its `count` to
`(lastEvent.count || 0) + 1` and re-append it; otherwise append the new
event. An empty log (`lastEvent` undefined) always appends. -/
def handleRealtimeEvent (realtimeEvents : List RealtimeEvent)
    (realtimeEvent : RealtimeEvent) : List RealtimeEvent :=
  match realtimeEvents.getLast? with
  | some lastEvent =>
    if lastEvent.event.type = realtimeEvent.event.type then
      realtimeEvents.dropLast ++
        [{ lastEvent with count := some (lastEvent.count.getD 0 + 1) }]
    else
      realtimeEvents ++ [realtimeEvent]
  | none => realtimeEvents ++ [realtimeEvent]

/-- Delivering a sequence of events to the handler in arrival order. -/
def feedEvents (log : List RealtimeEvent) (evs : List RealtimeEvent) :
    List RealtimeEvent :=
  evs.foldl handleRealtimeEvent log

example :
    (feedEvents []
      [⟨"t0", .server, none, ⟨"a", ""⟩⟩, ⟨"t1", .server, none, ⟨"a", ""⟩⟩,
       ⟨"t2", .server, none, ⟨"a", ""⟩⟩]).map (fun e => e.count) =
    [some 2] := by decide

/-- `interface EmailMarketingContent { subject; body }`. -/
structure EmailMarketingContent where
  subject : String
  body : String
deriving DecidableEq, Repr

inductive Role
  | user
  | assistant
  | system
deriving DecidableEq, Repr

/-- The artifact of `WavRecorder.decode(audio, fromRate, toRate)`.
The decoder itself is external (wavtools); it is modelled abstractly as a
constructor recording its raw audio and its two sample-rate arguments. -/
structure DecodedAudioFile where
  audio : List Int
  fromSampleRate : Nat
  toSampleRate : Nat
deriving DecidableEq, Repr

/-- Abstract model of the static `WavRecorder.decode`. -/
def decode (audio : List Int) (fromSampleRate toSampleRate : Nat) :
    DecodedAudioFile :=
  { audio := audio, fromSampleRate := fromSampleRate,
    toSampleRate := toSampleRate }

/-- `item.formatted` as consumed by the handlers: transcript/text for
rendering, `audio` (an Int16Array, possibly absent) and the decoded
`file` attached on completion. `audio := none` models an undefined
field. -/
structure FormattedItem where
  transcript : Option String := none
  text : Option String := none
  audio : Option (List Int) := none
  file : Option DecodedAudioFile := none
deriving DecidableEq, Repr

/-- A conversation item as held by the realtime client's store. -/
structure ConversationItem where
  id : String
  role : Option Role := none
  status : Option String := none
  formatted : FormattedItem := {}
deriving DecidableEq, Repr

/-- WavRecorder `getStatus()` values. -/
inductive RecorderStatus
  | ended
  | paused
  | recording
deriving DecidableEq, Repr

/-- The result of `wavStreamPlayer.interrupt()`: either nothing was
playing (`none`) or a `{trackId, offset}` pair. `trackId = none` models
a JS-falsy trackId (null/undefined). -/
structure TrackSampleOffset where
  trackId : Option String
  offset : Int
deriving DecidableEq, Repr

/-- `turn_detection` session configuration values; `Option TurnDetection`
with `none` models the explicit `null` (manual push-to-talk). -/
inductive TurnDetection
  | server_vad
deriving DecidableEq, Repr

/-- One observable step of an orchestrator operation: a call on one of
the three adapters, or a React state-setter. Traces of these record the
order in which the source performs its effects. -/
inductive Step
  | recordStartTime (now : String)
  | setConnected (b : Bool)
  | clearEventLog
  | loadItems
  | clearItems
  | clearMemory
  | setChatOpen (b : Bool)
  | recorderBegin
  | recorderRecord
  | recorderPause
  | recorderEnd
  | playerConnect
  | playerInterrupt
  | playerAdd (audio : List Int) (itemId : String)
  | clientConnect
  | clientDisconnect
  | updateSession (turn_detection : Option TurnDetection)
  | sendUserMessage (contentType : String) (text : String)
  | createResponse
  | cancelResponse (trackId : String) (offset : Int)
  | setVADMode (b : Bool)
  | setListening (b : Bool)
  | setRecording (b : Bool)
  | setRecordingDuration (n : Nat)
  | setTextMessage (t : String)
  | logError
deriving DecidableEq, Repr

/-- The orchestrator's state: the component's `useState` variables,
`startTimeRef`, plus the observable state of the three adapters
(recorder status, player connection and its pending interrupt result,
client connection and its canonical conversation-item store). -/
structure OrchestratorState where
  isConnected : Bool := false
  isChatOpen : Bool := false
  isVADMode : Bool := false
  isListening : Bool := false
  isRecording : Bool := false
  canPushToTalk : Bool := false
  vadEnabled : Bool := false
  recordingDuration : Nat := 0
  textMessage : String := ""
  startTime : String := ""
  items : List ConversationItem := []
  realtimeEvents : List RealtimeEvent := []
  memoryKv : List (String × String) := []
  emailContent : EmailMarketingContent := ⟨"", ""⟩
  recorderStatus : RecorderStatus := .ended
  playerConnected : Bool := false
  playerInterruptResult : Option TrackSampleOffset := none
  clientConnected : Bool := false
  clientItems : List ConversationItem := []
deriving DecidableEq, Repr

/-- The component's initial state (the `useState` initial values). -/
def initialState : OrchestratorState := {}

/-- JS object update `newKv[key] = value` on an insertion-ordered map:
replace in place if the key exists, else append. -/
def setKv : List (String × String) → String → String → List (String × String)
  | [], k, v => [(k, v)]
  | (k', v') :: rest, k, v =>
    if k' = k then (k, v) :: rest else (k', v') :: setKv rest k v

/-- Reading a key of the insertion-ordered map. -/
def kvLookup (kv : List (String × String)) (k : String) : Option String :=
  (kv.find? (fun p => p.1 = k)).map (fun p => p.2)

/-- JS `String.prototype.trim()` (strip leading and trailing
whitespace), modelled executably over the character list. -/
def jsTrim (s : String) : String :=
  String.mk
    (((s.data.dropWhile Char.isWhitespace).reverse.dropWhile
        Char.isWhitespace).reverse)

/-- `disconnectConversation` (part_000 lines 126-141): clears the UI
state (connected flag, event log, items, memory key-values, chat-open),
then `client.disconnect()`, `wavRecorder.end()`,
`wavStreamPlayer.interrupt()`. -/
def disconnectConversation (s : OrchestratorState) :
    OrchestratorState × List Step :=
  ({ s with
      isConnected := false
      realtimeEvents := []
      items := []
      memoryKv := []
      isChatOpen := false
      clientConnected := false
      recorderStatus := .ended
      playerInterruptResult := none },
   [Step.setConnected false, Step.clearEventLog, Step.clearItems,
    Step.clearMemory, Step.setChatOpen false, Step.clientDisconnect,
    Step.recorderEnd, Step.playerInterrupt])

/-- `connectConversation` (part_000 lines 147-180). If already
connected, it runs `disconnectConversation` instead. Otherwise it sets
the start timestamp, the connected flag, clears the event log, loads
`client.conversation.getItems()`, opens the chat, begins the recorder,
connects the player, awaits `client.connect()`, sends the `Hello!`
greeting and sets `turn_detection: null`. `now` is the value of
`new Date().toISOString()`. `clientConnectSucceeds` is the environment's
outcome of `await client.connect()`: when the promise rejects, the
statements after it never run and there is no catch, so the partial
state (connected flag already true) is what remains. -/
def connectConversation (s : OrchestratorState) (now : String)
    (clientConnectSucceeds : Bool) : OrchestratorState × List Step :=
  if s.isConnected then
    disconnectConversation s
  else
    let s₁ := { s with
      startTime := now
      isConnected := true
      realtimeEvents := []
      items := s.clientItems
      isChatOpen := true
      recorderStatus := .paused
      playerConnected := true }
    let t₁ := [Step.recordStartTime now, Step.setConnected true,
      Step.clearEventLog, Step.loadItems, Step.setChatOpen true,
      Step.recorderBegin, Step.playerConnect]
    if clientConnectSucceeds then
      ({ s₁ with clientConnected := true },
       t₁ ++ [Step.clientConnect,
              Step.sendUserMessage "input_text" "Hello!",
              Step.updateSession none])
    else
      (s₁, t₁)

/-- `changeTurnEndType(value)` (part_000 lines 185-204): if switching to
manual (`'none'`) while the recorder reports `'recording'`, pause it
first; then `updateSession` with `turn_detection` null or server_vad;
set the VAD-mode flag; then either start listening and record (VAD while
`client.isConnected()`) or stop listening and pause. -/
def changeTurnEndType (s : OrchestratorState) (value : String) :
    OrchestratorState × List Step :=
  let s₁ :=
    if value = "none" ∧ s.recorderStatus = .recording then
      { s with recorderStatus := RecorderStatus.paused }
    else s
  let t₁ : List Step :=
    if value = "none" ∧ s.recorderStatus = .recording then
      [Step.recorderPause]
    else []
  let cfg : Option TurnDetection :=
    if value = "none" then none else some .server_vad
  let s₂ := { s₁ with isVADMode := value = "server_vad" }
  let t₂ := t₁ ++ [Step.updateSession cfg,
                   Step.setVADMode (value = "server_vad")]
  if value = "server_vad" ∧ s.clientConnected then
    ({ s₂ with isListening := true, recorderStatus := .recording },
     t₂ ++ [Step.setListening true, Step.recorderRecord])
  else
    ({ s₂ with isListening := false, recorderStatus := .paused },
     t₂ ++ [Step.setListening false, Step.recorderPause])

/-- `toggleListening` (part_000 lines 207-219). -/
def toggleListening (s : OrchestratorState) : OrchestratorState × List Step :=
  if s.isListening then
    ({ s with isListening := false, recorderStatus := .paused },
     [Step.setListening false, Step.recorderPause, Step.createResponse])
  else
    ({ s with isListening := true, recorderStatus := .recording },
     [Step.setListening true, Step.recorderRecord])

/-- `stopRecording` (part_000 lines 224-230): clear the recording flag,
pause the recorder, request a response. -/
def stopRecording (s : OrchestratorState) : OrchestratorState × List Step :=
  ({ s with isRecording := false, recorderStatus := .paused },
   [Step.setRecording false, Step.recorderPause, Step.createResponse])

/-- `stopPlayback` (part_000 lines 232-235): `wavStreamPlayer.interrupt()`
(discarding its result). -/
def stopPlayback (s : OrchestratorState) : OrchestratorState × List Step :=
  ({ s with playerInterruptResult := none }, [Step.playerInterrupt])

/-- `handlePushToTalk` (part_000 lines 237-252): guarded by
`!isConnected || isVADMode`; if not recording, stop playback, set the
recording flag, reset the duration, start recording (the interval timer
is real time and not modelled). -/
def handlePushToTalk (s : OrchestratorState) : OrchestratorState × List Step :=
  if ¬s.isConnected ∨ s.isVADMode then (s, [])
  else if ¬s.isRecording then
    ({ (stopPlayback s).1 with
        isRecording := true
        recordingDuration := 0
        recorderStatus := .recording },
     (stopPlayback s).2 ++ [Step.setRecording true,
            Step.setRecordingDuration 0, Step.recorderRecord])
  else (s, [])

/-- `handlePushToTalkEnd` (part_000 lines 254-261): only acts when
`isRecording`; then `stopRecording` (the `clearInterval` is real time
and not modelled). -/
def handlePushToTalkEnd (s : OrchestratorState) :
    OrchestratorState × List Step :=
  if s.isRecording then stopRecording s else (s, [])

/-- `sendTextMessage` (part_000 lines 263-276): guarded by
`!isConnected || !textMessage.trim()`; otherwise stop playback, send the
(untrimmed) text as an `input_text` user message, clear the buffer. -/
def sendTextMessage (s : OrchestratorState) : OrchestratorState × List Step :=
  if ¬s.isConnected ∨ jsTrim s.textMessage = "" then (s, [])
  else
    ({ (stopPlayback s).1 with textMessage := "" },
     (stopPlayback s).2 ++ [Step.sendUserMessage "input_text" s.textMessage,
            Step.setTextMessage ""])

/-- The `set_memory` tool handler (part_000 lines 398-426):
`newKv[key] = value` on a copy of the current map. -/
def set_memory (s : OrchestratorState) (key value : String) :
    OrchestratorState × List Step :=
  ({ s with memoryKv := setKv s.memoryKv key value }, [])

/-- The `edit_email_marketing` tool handler (part_000 lines 427-450):
replaces the email content wholesale. -/
def edit_email_marketing (s : OrchestratorState) (subject body : String) :
    OrchestratorState × List Step :=
  ({ s with emailContent := ⟨subject, body⟩ }, [])

/-- The `client.on('realtime.event')` handler as a state transition. -/
def onRealtimeEvent (s : OrchestratorState) (ev : RealtimeEvent) :
    OrchestratorState × List Step :=
  ({ s with realtimeEvents := handleRealtimeEvent s.realtimeEvents ev }, [])

/-- The `client.on('error')` handler (part_000 line 465): logs only. -/
def onError (s : OrchestratorState) : OrchestratorState × List Step :=
  (s, [Step.logError])

/-- The `client.on('conversation.interrupted')` handler (part_000 lines
466-472): await `wavStreamPlayer.interrupt()`; if the result has a
truthy `trackId`, call `client.cancelResponse(trackId, offset)`. -/
def onConversationInterrupted (s : OrchestratorState) :
    OrchestratorState × List Step :=
  let trackSampleOffset := s.playerInterruptResult
  let s₁ := { s with playerInterruptResult := none }
  match trackSampleOffset with
  | some ts =>
    match ts.trackId with
    | some tid =>
      (s₁, [Step.playerInterrupt, Step.cancelResponse tid ts.offset])
    | none => (s₁, [Step.playerInterrupt])
  | none => (s₁, [Step.playerInterrupt])

/-- `delta` of a `conversation.updated` event; only `delta?.audio` is
inspected (any present array, even empty, is truthy). -/
structure UpdatedDelta where
  audio : Option (List Int) := none
deriving DecidableEq, Repr

/-- The in-place mutation of the event's item on completion (part_000
lines 478-485): when `item.status === 'completed'` and
`item.formatted.audio?.length` is truthy (present and non-empty), attach
`WavRecorder.decode(item.formatted.audio, 24000, 24000)` as
`item.formatted.file`. -/
def completeItem (it : ConversationItem) : ConversationItem :=
  match it.formatted.audio with
  | some raw =>
    if it.status = some "completed" ∧ raw ≠ [] then
      { it with formatted :=
          { it.formatted with file := some (decode raw 24000 24000) } }
    else it
  | none => it

/-- The `client.on('conversation.updated')` handler (part_000 lines
473-487): fetch the canonical `client.conversation.getItems()` list; if
`delta?.audio`, enqueue it to the player keyed by `item.id`; mutate the
(shared, aliased by id) item object on completion; `setItems` to the
canonical list. The JS in-place mutation of the aliased item object is
modelled by mapping `completeItem` over the entries with the event
item's id (ids are unique in the client store). -/
def onConversationUpdated (s : OrchestratorState) (item : ConversationItem)
    (delta : UpdatedDelta) : OrchestratorState × List Step :=
  let addSteps : List Step :=
    match delta.audio with
    | some a => [Step.playerAdd a item.id]
    | none => []
  let newClientItems :=
    s.clientItems.map (fun it => if it.id = item.id then completeItem it else it)
  ({ s with clientItems := newClientItems, items := newClientItems },
   addSteps)

/-! ## Lemmas about the event-log coalescing handler -/

/-- True when the log is empty or its last entry's payload type differs
from `t`. -/
def lastTypeDiffers (log : List RealtimeEvent) (t : String) : Bool :=
  match log.getLast? with
  | none => true
  | some l => l.event.type ≠ t

lemma handleRealtimeEvent_concat_same (log : List RealtimeEvent)
    (entry e : RealtimeEvent) (h : entry.event.type = e.event.type) :
    handleRealtimeEvent (log ++ [entry]) e =
      log ++ [{ entry with count := some (entry.count.getD 0 + 1) }] := by
  simp [handleRealtimeEvent, List.getLast?_concat, h]

lemma handleRealtimeEvent_append_new (log : List RealtimeEvent)
    (e : RealtimeEvent) (h : lastTypeDiffers log e.event.type = true) :
    handleRealtimeEvent log e = log ++ [e] := by
  unfold handleRealtimeEvent
  unfold lastTypeDiffers at h
  cases hl : log.getLast? with
  | none => rfl
  | some l =>
    rw [hl] at h
    simp only [decide_eq_true_eq] at h
    simp [h]

lemma feedEvents_run (t : String) (rest : List RealtimeEvent)
    (hrest : ∀ x ∈ rest, x.event.type = t) :
    ∀ (log : List RealtimeEvent) (entry : RealtimeEvent),
      entry.event.type = t →
      feedEvents (log ++ [entry]) rest =
        log ++ [if rest = [] then entry
                else { entry with
                        count := some (entry.count.getD 0 + rest.length) }] := by
  induction rest with
  | nil => intro log entry _; simp [feedEvents]
  | cons x xs ih =>
    intro log entry hentry
    have hx : x.event.type = t := hrest x (by simp)
    have hxs : ∀ y ∈ xs, y.event.type = t := fun y hy => hrest y (by simp [hy])
    have step : handleRealtimeEvent (log ++ [entry]) x =
        log ++ [{ entry with count := some (entry.count.getD 0 + 1) }] :=
      handleRealtimeEvent_concat_same log entry x (by rw [hentry, hx])
    have hfold : feedEvents (log ++ [entry]) (x :: xs) =
        feedEvents
          (log ++ [{ entry with count := some (entry.count.getD 0 + 1) }])
          xs := by
      simp [feedEvents, step]
    rw [hfold, ih hxs log _ (by simpa using hentry)]
    cases xs with
    | nil => simp
    | cons y ys => simp; omega

/-- A sample incoming realtime event (incoming events carry no `count`). -/
def evA : RealtimeEvent :=
  ⟨"t0", .server, none, ⟨"response.audio.delta", ""⟩⟩

/-- C1 counterexample: feeding N = 2 consecutive events of identical
type to the handler on an empty log yields exactly one entry, but that
entry's repeat count is `some 1`, not 2 (`lastEvent.count =
(lastEvent.count || 0) + 1` starts from an undefined count on the first
event of the run), refuting "repeatCount equals N". -/
theorem eventLog_repeatCount_counterexample :
    (feedEvents [] [evA, evA]).map (fun e => e.count) = [some 1] ∧
    ¬ (feedEvents [] [evA, evA]).map (fun e => e.count) = [some 2] := by
  decide

/-- C1 (amended): for every run of N ≥ 1 consecutive events of identical
payload type (each arriving without a count), delivered on a log whose
last entry (if any) has a different type, the resulting log is the old
log plus exactly one new entry for the run — the first event of the run,
whose `count` is N − 1 for N ≥ 2 and absent for N = 1; an event whose
type differs from the last entry's type starts a new entry instead of
being coalesced (the `rest = []` case of this statement, together with
`handleRealtimeEvent`'s append branch, which this equation instantiates
at every run start). -/
theorem eventLog_coalescing_amended (log : List RealtimeEvent)
    (e : RealtimeEvent) (rest : List RealtimeEvent) (t : String)
    (he : e.event.type = t) (hec : e.count = none)
    (hrest : ∀ x ∈ rest, x.event.type = t)
    (hlog : lastTypeDiffers log t = true) :
    feedEvents log (e :: rest) =
      log ++ [{ e with count := if rest = [] then none
                                else some rest.length }] := by
  have h1 : handleRealtimeEvent log e = log ++ [e] :=
    handleRealtimeEvent_append_new log e (by rw [he]; exact hlog)
  have h2 : feedEvents log (e :: rest) = feedEvents (log ++ [e]) rest := by
    simp [feedEvents, h1]
  rw [h2, feedEvents_run t rest hrest log e he]
  cases rest with
  | nil =>
    rw [← hec]
    simp
  | cons x xs => simp [hec]

/-- Witness for `eventLog_coalescing_amended` at N = 2 on an empty log. -/
theorem eventLog_coalescing_amended_witness :
    evA.event.type = "response.audio.delta" ∧
    evA.count = none ∧
    (∀ x ∈ [evA], x.event.type = "response.audio.delta") ∧
    lastTypeDiffers [] "response.audio.delta" = true ∧
    feedEvents [] (evA :: [evA]) =
      [] ++ [{ evA with count := if [evA] = ([] : List RealtimeEvent)
                                 then none else some [evA].length }] := by
  refine ⟨rfl, rfl, by decide, by decide, ?_⟩
  exact eventLog_coalescing_amended [] evA [evA] "response.audio.delta"
    rfl rfl (by decide) (by decide)

/-! ## Lemmas about the key-value memory map -/

lemma kvLookup_cons (a b : String) (rest : List (String × String))
    (k : String) :
    kvLookup ((a, b) :: rest) k =
      if a = k then some b else kvLookup rest k := by
  by_cases h : a = k <;> simp [kvLookup, List.find?_cons, h]

lemma kvLookup_setKv (kv : List (String × String)) (k v k' : String) :
    kvLookup (setKv kv k v) k' =
      if k' = k then some v else kvLookup kv k' := by
  induction kv with
  | nil =>
    rw [show setKv [] k v = [(k, v)] from rfl, kvLookup_cons]
    by_cases h : k' = k
    · subst h; simp
    · rw [if_neg (fun h' : k = k' => h h'.symm), if_neg h]
  | cons p rest ih =>
    obtain ⟨a, b⟩ := p
    by_cases hak : a = k
    · subst hak
      have hs : setKv ((a, b) :: rest) a v = (a, v) :: rest := by
        simp [setKv]
      rw [hs, kvLookup_cons, kvLookup_cons]
      by_cases h : k' = a
      · subst h; simp
      · rw [if_neg (fun h' : a = k' => h h'.symm), if_neg h,
            if_neg (fun h' : a = k' => h h'.symm)]
    · have hs : setKv ((a, b) :: rest) k v = (a, b) :: setKv rest k v := by
        simp [setKv, hak]
      rw [hs, kvLookup_cons, kvLookup_cons, ih]
      by_cases h : a = k'
      · have hkk : ¬ k' = k := fun hk => hak (h.trans hk)
        rw [if_pos h, if_neg hkk, if_pos h]
      · rw [if_neg h, if_neg h]

/-- C2 counterexample: `disconnectConversation` resets the MemoryStore
to empty (`setMemoryKv({})`, part_000 line 130), so an operation other
than the `set_memory` tool handler does mutate it. -/
theorem memoryKv_disconnect_clears_counterexample :
    ({ initialState with
        memoryKv := [("a", "1")] } : OrchestratorState).memoryKv =
      [("a", "1")] ∧
    (disconnectConversation
      { initialState with memoryKv := [("a", "1")] }).1.memoryKv = [] ∧
    ([] : List (String × String)) ≠ [("a", "1")] := by
  decide

/-- C2 (amended): every operation of the orchestrator other than the
`set_memory` tool handler and `disconnectConversation` leaves the
MemoryStore unchanged; `disconnectConversation` resets it to empty (and
`connectConversation` invoked while connected does the same, since it
delegates to disconnect); `set_memory(key, value)` sets exactly the
given key to the given value, leaving every other key unchanged. -/
theorem memoryKv_frame_amended (s : OrchestratorState)
    (now v key value k' subject body : String) (ok : Bool)
    (ev : RealtimeEvent) (item : ConversationItem) (delta : UpdatedDelta) :
    (connectConversation s now ok).1.memoryKv =
      (if s.isConnected = true then [] else s.memoryKv) ∧
    (disconnectConversation s).1.memoryKv = [] ∧
    (changeTurnEndType s v).1.memoryKv = s.memoryKv ∧
    (toggleListening s).1.memoryKv = s.memoryKv ∧
    (handlePushToTalk s).1.memoryKv = s.memoryKv ∧
    (handlePushToTalkEnd s).1.memoryKv = s.memoryKv ∧
    (sendTextMessage s).1.memoryKv = s.memoryKv ∧
    (onRealtimeEvent s ev).1.memoryKv = s.memoryKv ∧
    (onError s).1.memoryKv = s.memoryKv ∧
    (onConversationInterrupted s).1.memoryKv = s.memoryKv ∧
    (onConversationUpdated s item delta).1.memoryKv = s.memoryKv ∧
    (edit_email_marketing s subject body).1.memoryKv = s.memoryKv ∧
    kvLookup (set_memory s key value).1.memoryKv k' =
      (if k' = key then some value else kvLookup s.memoryKv k') := by
  refine ⟨?_, rfl, ?_, ?_, ?_, ?_, ?_, rfl, rfl, ?_, rfl, rfl, ?_⟩
  · cases hc : s.isConnected <;> cases ok <;>
      simp [connectConversation, disconnectConversation, hc]
  · simp only [changeTurnEndType]
    split <;> split <;> rfl
  · unfold toggleListening
    split <;> rfl
  · unfold handlePushToTalk stopPlayback
    split
    · rfl
    · split <;> rfl
  · unfold handlePushToTalkEnd stopRecording
    split <;> rfl
  · unfold sendTextMessage stopPlayback
    split <;> rfl
  · unfold onConversationInterrupted
    rcases s.playerInterruptResult with _ | ⟨tid, off⟩
    · rfl
    · cases tid <;> rfl
  · exact kvLookup_setKv s.memoryKv key value k'

/-- C3: the code at the failing input. From the disconnected state, when
`await client.connect()` rejects, `connectConversation` has already set
the connected flag optimistically and there is no catch: afterwards the
state still reports connected, no reverting `setIsConnected(false)` step
occurs, and the trace ends at the player connect — no error is surfaced
and nothing reverts to disconnected, contrary to the claim. -/
theorem connect_failure_leaves_connected :
    (connectConversation initialState "2026-10-12T00:00:00Z"
      false).1.isConnected = true ∧
    Step.setConnected false ∉
      (connectConversation initialState "2026-10-12T00:00:00Z" false).2 ∧
    (connectConversation initialState "2026-10-12T00:00:00Z" false).2 =
      [Step.recordStartTime "2026-10-12T00:00:00Z", Step.setConnected true,
       Step.clearEventLog, Step.loadItems, Step.setChatOpen true,
       Step.recorderBegin, Step.playerConnect] := by
  decide

/-- C10: `disconnectConversation` clears the conversation items, the
event log, the MemoryStore and the chat-open and connected flags, but
leaves the EmailDraft (subject and body) unchanged; a subsequent
`connectConversation` never touches it either, so the draft persists
across any disconnect/reconnect cycle. -/
theorem disconnect_preserves_email (s : OrchestratorState) (now : String)
    (ok : Bool) :
    (disconnectConversation s).1.emailContent = s.emailContent ∧
    (disconnectConversation s).1.items = [] ∧
    (disconnectConversation s).1.realtimeEvents = [] ∧
    (disconnectConversation s).1.memoryKv = [] ∧
    (disconnectConversation s).1.isChatOpen = false ∧
    (disconnectConversation s).1.isConnected = false ∧
    (connectConversation (disconnectConversation s).1 now
      ok).1.emailContent = s.emailContent := by
  refine ⟨rfl, rfl, rfl, rfl, rfl, rfl, ?_⟩
  cases ok <;> simp [connectConversation, disconnectConversation]

/-! ## Trace observation helpers -/

/-- The `cancelResponse(trackId, offset)` calls of a trace, in order. -/
def cancelResponseCalls (t : List Step) : List (String × Int) :=
  t.filterMap (fun st =>
    match st with
    | Step.cancelResponse tid off => some (tid, off)
    | _ => none)

/-- The number of `createResponse()` calls of a trace. -/
def countCreateResponse (t : List Step) : Nat :=
  (t.filter (fun st =>
    match st with
    | Step.createResponse => true
    | _ => false)).length

/-- C4: handling `conversation.interrupted` always invokes the playback
device's `interrupt()`, and calls `cancelResponse` exactly once with the
trackId and offset returned by `interrupt()` precisely when that result
is present with a trackId; when `interrupt()` returns undefined or a
result without a trackId, no `cancelResponse` call is made. -/
theorem conversation_interrupted_cancel (s : OrchestratorState) :
    Step.playerInterrupt ∈ (onConversationInterrupted s).2 ∧
    cancelResponseCalls (onConversationInterrupted s).2 =
      (match s.playerInterruptResult with
       | some ts =>
         match ts.trackId with
         | some tid => [(tid, ts.offset)]
         | none => []
       | none => []) := by
  unfold onConversationInterrupted
  rcases s.playerInterruptResult with _ | ⟨tid, off⟩
  · exact ⟨by simp, rfl⟩
  · cases tid <;> exact ⟨by simp, rfl⟩

/-- C5: in connected manual (non-VAD) mode, `handlePushToTalk` from the
not-recording state followed by `handlePushToTalkEnd` issues exactly one
`createResponse` request and leaves the recorder paused and the
recording flag cleared; and `handlePushToTalkEnd` with no recording in
progress is a no-op (no steps, state unchanged). -/
theorem push_to_talk_once (s s' : OrchestratorState)
    (h1 : s.isConnected = true) (h2 : s.isVADMode = false)
    (h3 : s.isRecording = false) (h4 : s'.isRecording = false) :
    countCreateResponse ((handlePushToTalk s).2 ++
      (handlePushToTalkEnd (handlePushToTalk s).1).2) = 1 ∧
    (handlePushToTalkEnd (handlePushToTalk s).1).1.recorderStatus =
      RecorderStatus.paused ∧
    (handlePushToTalkEnd (handlePushToTalk s).1).1.isRecording = false ∧
    handlePushToTalkEnd s' = (s', []) := by
  refine ⟨?_, ?_, ?_, ?_⟩ <;>
    simp [handlePushToTalk, handlePushToTalkEnd, stopRecording,
          stopPlayback, countCreateResponse, h1, h2, h3, h4]

/-- A connected state, used to instantiate push-to-talk behavior. -/
def sConn : OrchestratorState := { initialState with isConnected := true }

/-- Witness for `push_to_talk_once` at a concrete connected state. -/
theorem push_to_talk_once_witness :
    sConn.isConnected = true ∧ sConn.isVADMode = false ∧
    sConn.isRecording = false ∧ initialState.isRecording = false ∧
    (countCreateResponse ((handlePushToTalk sConn).2 ++
       (handlePushToTalkEnd (handlePushToTalk sConn).1).2) = 1 ∧
     (handlePushToTalkEnd (handlePushToTalk sConn).1).1.recorderStatus =
       RecorderStatus.paused ∧
     (handlePushToTalkEnd (handlePushToTalk sConn).1).1.isRecording = false ∧
     handlePushToTalkEnd initialState = (initialState, [])) :=
  ⟨rfl, rfl, rfl, rfl, push_to_talk_once sConn initialState rfl rfl rfl rfl⟩

/-- C6: switching the turn mode to manual (`'none'`) while the recorder
status is `'recording'` pauses the recorder strictly before the
`updateSession({turn_detection: null})` call (first two steps of the
trace, in that order); switching to `'server_vad'` while the client is
connected starts capture immediately (recorder recording, listening flag
set); switching to `'none'` always leaves the recorder paused and the
listening flag false. -/
theorem turn_mode_ordering (s₁ s₂ s₃ : OrchestratorState)
    (h1 : s₁.recorderStatus = RecorderStatus.recording)
    (h3 : s₃.clientConnected = true) :
    (changeTurnEndType s₁ "none").2 =
      [Step.recorderPause, Step.updateSession none, Step.setVADMode false,
       Step.setListening false, Step.recorderPause] ∧
    (changeTurnEndType s₃ "server_vad").1.recorderStatus =
      RecorderStatus.recording ∧
    (changeTurnEndType s₃ "server_vad").1.isListening = true ∧
    (changeTurnEndType s₃ "server_vad").2 =
      [Step.updateSession (some TurnDetection.server_vad),
       Step.setVADMode true, Step.setListening true, Step.recorderRecord] ∧
    (changeTurnEndType s₂ "none").1.recorderStatus =
      RecorderStatus.paused ∧
    (changeTurnEndType s₂ "none").1.isListening = false := by
  refine ⟨?_, ?_, ?_, ?_, ?_, ?_⟩ <;>
    simp [changeTurnEndType, h1, h3]

/-- A state whose recorder is live, to instantiate the VAD-to-manual
switch. -/
def sRec : OrchestratorState :=
  { initialState with recorderStatus := RecorderStatus.recording }

/-- A state whose realtime client is connected, to instantiate the
switch to VAD mode. -/
def sCli : OrchestratorState := { initialState with clientConnected := true }

/-- Witness for `turn_mode_ordering` at concrete states. -/
theorem turn_mode_ordering_witness :
    sRec.recorderStatus = RecorderStatus.recording ∧
    sCli.clientConnected = true ∧
    ((changeTurnEndType sRec "none").2 =
      [Step.recorderPause, Step.updateSession none, Step.setVADMode false,
       Step.setListening false, Step.recorderPause] ∧
     (changeTurnEndType sCli "server_vad").1.recorderStatus =
       RecorderStatus.recording ∧
     (changeTurnEndType sCli "server_vad").1.isListening = true ∧
     (changeTurnEndType sCli "server_vad").2 =
       [Step.updateSession (some TurnDetection.server_vad),
        Step.setVADMode true, Step.setListening true, Step.recorderRecord] ∧
     (changeTurnEndType initialState "none").1.recorderStatus =
       RecorderStatus.paused ∧
     (changeTurnEndType initialState "none").1.isListening = false) :=
  ⟨rfl, rfl, turn_mode_ordering sRec initialState sCli rfl rfl⟩

/-- C7: `connectConversation` invoked while connected performs
`disconnectConversation` instead; invoked while disconnected (with the
remote connect succeeding) it performs, in this order: record the
session start timestamp, set the UI connected flag, clear the event log,
load the conversation items from the client store, open the chat (a UI
step interleaved here by the source), begin the capture device, connect
the playback device, connect the remote client, send the initial
`Hello!` greeting as an `input_text` user message, and set the session's
`turn_detection` to null (manual push-to-talk default). -/
theorem connect_sequence (s s' : OrchestratorState) (now : String)
    (ok : Bool) (h : s.isConnected = true) (h' : s'.isConnected = false) :
    connectConversation s now ok = disconnectConversation s ∧
    (connectConversation s' now true).2 =
      [Step.recordStartTime now, Step.setConnected true, Step.clearEventLog,
       Step.loadItems, Step.setChatOpen true, Step.recorderBegin,
       Step.playerConnect, Step.clientConnect,
       Step.sendUserMessage "input_text" "Hello!",
       Step.updateSession none] ∧
    (connectConversation s' now true).1.isConnected = true ∧
    (connectConversation s' now true).1.startTime = now ∧
    (connectConversation s' now true).1.realtimeEvents = [] ∧
    (connectConversation s' now true).1.items = s'.clientItems := by
  refine ⟨?_, ?_, ?_, ?_, ?_, ?_⟩ <;>
    simp [connectConversation, h, h']

/-- Witness for `connect_sequence` at concrete states. -/
theorem connect_sequence_witness :
    sConn.isConnected = true ∧ initialState.isConnected = false ∧
    (connectConversation sConn "t0" true = disconnectConversation sConn ∧
     (connectConversation initialState "t0" true).2 =
       [Step.recordStartTime "t0", Step.setConnected true,
        Step.clearEventLog, Step.loadItems, Step.setChatOpen true,
        Step.recorderBegin, Step.playerConnect, Step.clientConnect,
        Step.sendUserMessage "input_text" "Hello!",
        Step.updateSession none] ∧
     (connectConversation initialState "t0" true).1.isConnected = true ∧
     (connectConversation initialState "t0" true).1.startTime = "t0" ∧
     (connectConversation initialState "t0" true).1.realtimeEvents = [] ∧
     (connectConversation initialState "t0" true).1.items =
       initialState.clientItems) :=
  ⟨rfl, rfl, connect_sequence sConn initialState "t0" true rfl rfl⟩

/-- C8: for every `conversation.updated` event, unconditionally: the
item list is replaced wholesale by the client's canonical
(post-mutation) item list, which is the old client store with the
completion mutation applied at the event item's id (not an incremental
patch); independently, the trace enqueues the audio chunk to the player
keyed by the event item's id exactly when the event carries an audio
delta (and enqueues nothing otherwise); and independently, the event
item's mutation attaches a decoded artifact with decode parameters
source rate 24000 and target rate 24000 exactly when the item's status
is `'completed'` and its raw formatted audio is present and non-empty
(and leaves `formatted.file` unchanged otherwise). -/
theorem conversation_updated_items (s : OrchestratorState)
    (item : ConversationItem) (delta : UpdatedDelta) :
    (onConversationUpdated s item delta).1.items =
      (onConversationUpdated s item delta).1.clientItems ∧
    (onConversationUpdated s item delta).1.items =
      s.clientItems.map
        (fun it => if it.id = item.id then completeItem it else it) ∧
    (onConversationUpdated s item delta).2 =
      (match delta.audio with
       | some a => [Step.playerAdd a item.id]
       | none => []) ∧
    (completeItem item).formatted.file =
      (match item.formatted.audio with
       | some raw =>
         if item.status = some "completed" ∧ raw ≠ [] then
           some (decode raw 24000 24000)
         else item.formatted.file
       | none => item.formatted.file) := by
  refine ⟨rfl, rfl, ?_, ?_⟩
  · cases hd : delta.audio <;> simp [onConversationUpdated, hd]
  · unfold completeItem
    cases ha : item.formatted.audio with
    | none => rfl
    | some raw =>
      by_cases h : item.status = some "completed" ∧ raw ≠ [] <;> simp [h]

/-- A completed assistant item with raw audio, id `"x"`. -/
def itemX : ConversationItem :=
  { id := "x", role := some .assistant, status := some "completed",
    formatted := { audio := some [1, 2] } }

/-- A state whose client store holds `itemX`. -/
def sItems : OrchestratorState := { initialState with clientItems := [itemX] }

/-- An update delta carrying one audio chunk. -/
def deltaA : UpdatedDelta := { audio := some [5] }

example :
    (onConversationUpdated sItems itemX deltaA).1.items =
      [{ itemX with formatted :=
          { itemX.formatted with
              file := some (decode [1, 2] 24000 24000) } }] ∧
    (onConversationUpdated sItems itemX deltaA).2 =
      [Step.playerAdd [5] "x"] := by decide

example :
    (onConversationUpdated sItems itemX { audio := none }).1.items =
      (onConversationUpdated sItems itemX { audio := none }).1.clientItems ∧
    (onConversationUpdated sItems itemX { audio := none }).2 = [] := by
  decide

example :
    (completeItem { id := "y", status := some "in_progress",
                    formatted := { audio := some [3] } }).formatted.file =
      none := by decide

/-- C9: `sendTextMessage` is a no-op (state unchanged, no steps) when
the session is disconnected or the buffered text trims to empty; when
connected with non-blank text it first interrupts playback, then sends
the buffered text as an `input_text` user message, and clears the input
buffer. -/
theorem send_text_message_behavior (s s₁ s₂ : OrchestratorState)
    (h1 : s.isConnected = false) (h2 : jsTrim s₁.textMessage = "")
    (h3 : s₂.isConnected = true) (h4 : jsTrim s₂.textMessage ≠ "") :
    sendTextMessage s = (s, []) ∧
    sendTextMessage s₁ = (s₁, []) ∧
    (sendTextMessage s₂).2 =
      [Step.playerInterrupt,
       Step.sendUserMessage "input_text" s₂.textMessage,
       Step.setTextMessage ""] ∧
    (sendTextMessage s₂).1.textMessage = "" := by
  refine ⟨?_, ?_, ?_, ?_⟩ <;>
    simp [sendTextMessage, stopPlayback, h1, h2, h3, h4]

/-- A connected state whose buffered text is whitespace only. -/
def sBlank : OrchestratorState :=
  { initialState with isConnected := true, textMessage := "  " }

/-- A connected state with buffered text `"hi"`. -/
def sText : OrchestratorState :=
  { initialState with isConnected := true, textMessage := "hi" }

/-- Witness for `send_text_message_behavior` at concrete states. -/
theorem send_text_message_behavior_witness :
    initialState.isConnected = false ∧
    jsTrim sBlank.textMessage = "" ∧
    sText.isConnected = true ∧
    jsTrim sText.textMessage ≠ "" ∧
    (sendTextMessage initialState = (initialState, []) ∧
     sendTextMessage sBlank = (sBlank, []) ∧
     (sendTextMessage sText).2 =
       [Step.playerInterrupt,
        Step.sendUserMessage "input_text" sText.textMessage,
        Step.setTextMessage ""] ∧
     (sendTextMessage sText).1.textMessage = "") := by
  refine ⟨rfl, by decide, rfl, by decide, ?_⟩
  exact send_text_message_behavior initialState sBlank sText
    rfl (by decide) rfl (by decide)

end ConsolePage
